import Mathlib

/-!
Shallow embedding of the SQLAlchemy storage backend of `cliquet`
(`cliquet/storage/sqlalchemy/__init__.py`, together with the mapped-object
base in `cliquet/resource/sqlalchemy/__init__.py` and the epoch helpers in
`cliquet/storage/sqlalchemy/epoch.py`).

Modelling conventions:
* A `DateTime` column value is modelled as a `Nat`: the number of microseconds
  since the Unix epoch (Python datetimes carry microsecond precision).
  Each call of `datetime.datetime.utcnow()` in the source is modelled by an
  explicit `now : Nat` argument (one argument per textual call site, since
  successive calls may return different — or equal — values).
* The storage handles a single mapped collection class (`self.collection`),
  whose table has the `SQLABaseObject` columns `id`, `parent_id`,
  `last_modified`, `deleted` plus model-specific attribute columns, modelled
  as an association list `Attrs` of string columns.  The class name used by
  the `before_flush` hook (`classname(instance)`) is identified with the
  `collection_id` argument of the storage methods, as wired by
  `SQLAUserResource`.
* The database's unique constraints on the collection table are a parameter
  `uniqueCols : List String`; an INSERT violating one raises `IntegrityError`
  with pgcode 23505, whose message parse yields the offending column and
  value (`regexp_integrity_error_fields`).
* A failed flush aborts the surrounding transaction, so an operation that
  raises persists nothing: erroring operations return the unchanged database.
* `datetime.replace(tzinfo=utc).timestamp()` returns the epoch in *seconds*
  as a Python float; modelled exactly as a rational `micros / 1000000`.
-/

set_option linter.unusedVariables false

namespace Cliquet

/-- A row of the mapped collection table (`SQLABaseObject` columns plus the
model-specific attribute columns). -/
structure DBRecord where
  id : Nat
  parent_id : String
  attrs : List (String × String)
  last_modified : Nat
  deleted : Bool
deriving DecidableEq

/-- A row of the `deleted` tombstone table (class `Deleted`). -/
structure Deleted where
  id : Nat
  parent_id : String
  collection_id : String
  last_modified : Nat
deriving DecidableEq

/-- A row of the `timestamps` table (class `Timestamps`). -/
structure Timestamps where
  parent_id : String
  collection_id : String
  last_modified : Nat
deriving DecidableEq

/-- The database state seen by one `Storage`: the collection table, the
`deleted` table and the `timestamps` table. -/
structure DB where
  records : List DBRecord
  deleted : List Deleted
  timestamps : List Timestamps
deriving DecidableEq

/-- Errors raised by the storage methods (`cliquet.storage.exceptions`,
plus the uncaught `AttributeError` the `before_flush` hook raises when the
`timestamps` row for the scope does not exist). -/
inductive StorageError where
  | recordNotFoundError
  | unicityError (field : String) (value : String)
  | backendError
  | attributeError
deriving DecidableEq

/-- Value of `datetime.replace(tzinfo=timezone.utc).timestamp()` on a datetime holding
`micros` microseconds since the epoch: the epoch time in seconds, exact as a
rational.  This is the conversion applied at the public boundary both by
`Storage.collection_timestamp` and by `SQLABaseObject.last_modified_timestamp`
(hence by `deserialize`). -/
def as_timestamp (micros : Nat) : ℚ := (micros : ℚ) / 1000000

/-- The `before_flush` listener `populate_timestamps_table`, specialised to a
single new timestamp-trackeable instance: looks up the `timestamps` row keyed
by the instance's parent and class name and overwrites its `last_modified`
with `utcnow()`.  Returns `none` when the row is absent, in which case the
source's `timestamp.last_modified = ...` on `None` raises `AttributeError`. -/
def populate_timestamps_table (ts : List Timestamps) (parent_id collection_id : String)
    (now : Nat) : Option (List Timestamps) :=
  if ts.any (fun t => t.parent_id == parent_id && t.collection_id == collection_id) then
    some (ts.map (fun t =>
      if t.parent_id == parent_id && t.collection_id == collection_id then
        { t with last_modified := now }
      else t))
  else
    none

/-- Query `SELECT max(last_modified) FROM timestamps WHERE parent_id = .. AND
collection_id = ..` in `Storage.collection_timestamp`. -/
def tsMax (ts : List Timestamps) (parent_id collection_id : String) : Option Nat :=
  ((ts.filter (fun t => t.parent_id == parent_id && t.collection_id == collection_id)).map
      Timestamps.last_modified).foldl
    (fun acc v =>
      match acc with
      | none => some v
      | some m => some (max m v))
    none

/-- Model of `Storage.collection_timestamp`: reads the max tracked timestamp of the
scope; on first touch inserts a `timestamps` row at the current clock value.
Returns the raw datetime value; the public return value is
`as_timestamp` of it. -/
def collection_timestamp (db : DB) (collection_id parent_id : String) (now : Nat) :
    Nat × DB :=
  match tsMax db.timestamps parent_id collection_id with
  | some t => (t, db)
  | none =>
      (now, { db with timestamps := db.timestamps ++ [⟨parent_id, collection_id, now⟩] })

/-- The public (float-seconds) value of `Storage.collection_timestamp`. -/
def collection_timestamp_epoch (db : DB) (collection_id parent_id : String) (now : Nat) :
    ℚ × DB :=
  ((as_timestamp (collection_timestamp db collection_id parent_id now).1),
   (collection_timestamp db collection_id parent_id now).2)

/-- Autoincrement of the integer primary key on INSERT. -/
def nextId (records : List DBRecord) : Nat :=
  (records.map DBRecord.id).foldl max 0 + 1

/-- The database-side uniqueness check performed at flush time: the first
unique-constrained column whose value in the new row collides with an
existing row, together with the colliding value (as reported in the
`IntegrityError` message and parsed by `regexp_integrity_error_fields`). -/
def findConflict (uniqueCols : List String) (records : List DBRecord)
    (attrs : List (String × String)) : Option (String × String) :=
  uniqueCols.findSome? (fun c =>
    match attrs.lookup c with
    | none => none
    | some v =>
        if records.any (fun r => r.attrs.lookup c == some v) then some (c, v) else none)

/-- Model of `Storage.create`.  Builds the new object (`self.collection(**record)`),
sets `parent_id` and `last_modified := utcnow()` (`now`), then flushes: the
`before_flush` hook fires (`hookNow` is its own `utcnow()` call), then the
INSERT is checked against the unique constraints.  A unique violation maps to
`UnicityError` with the parsed field and value; the failed flush leaves
nothing committed.  The `unique_fields` argument is accepted but never read
by the source body. -/
def create (uniqueCols : List String) (db : DB) (collection_id parent_id : String)
    (record : List (String × String)) (unique_fields : List String) (now hookNow : Nat) :
    Except StorageError DBRecord × DB :=
  let obj : DBRecord :=
    { id := nextId db.records, parent_id := parent_id, attrs := record,
      last_modified := now, deleted := false }
  match populate_timestamps_table db.timestamps parent_id collection_id hookNow with
  | none => (Except.error StorageError.attributeError, db)
  | some ts =>
      match findConflict uniqueCols db.records record with
      | some fv => (Except.error (StorageError.unicityError fv.1 fv.2), db)
      | none => (Except.ok obj, { db with records := db.records ++ [obj], timestamps := ts })

/-- Lookup `Session.query(self.collection).get(object_id)`: primary-key lookup, by
`id` alone. -/
def findById (records : List DBRecord) (object_id : Nat) : Option DBRecord :=
  records.find? (fun r => r.id == object_id)

/-- Model of `Storage.get`: primary-key lookup; absent or soft-deleted rows raise
`RecordNotFoundError`.  The `collection_id` and `parent_id` arguments are not
used to restrict the lookup. -/
def get (db : DB) (collection_id parent_id : String) (object_id : Nat) :
    Except StorageError DBRecord :=
  match findById db.records object_id with
  | none => Except.error StorageError.recordNotFoundError
  | some obj =>
      if obj.deleted then Except.error StorageError.recordNotFoundError else Except.ok obj

/-- Effect of `setattr(obj, k, v)` for every pair of the supplied mapping, over the
model-specific attribute columns. -/
def applyAttrs (attrs object : List (String × String)) : List (String × String) :=
  object.foldl
    (fun acc kv =>
      if acc.any (fun p => p.1 == kv.1) then
        acc.map (fun p => if p.1 == kv.1 then (p.1, kv.2) else p)
      else acc ++ [kv])
    attrs

/-- Model of `Storage.update`: primary-key lookup by `object_id`; when absent,
delegates to `create` (without propagating the explicit id); when present,
sets each supplied attribute on the row and returns it.  The existing-row
branch touches neither `last_modified` nor the `timestamps` table and
performs no uniqueness mapping. -/
def update (uniqueCols : List String) (db : DB) (collection_id parent_id : String)
    (object_id : Nat) (object : List (String × String)) (unique_fields : List String)
    (now hookNow : Nat) : Except StorageError DBRecord × DB :=
  match findById db.records object_id with
  | none => create uniqueCols db collection_id parent_id object unique_fields now hookNow
  | some obj =>
      let obj2 : DBRecord := { obj with attrs := applyAttrs obj.attrs object }
      (Except.ok obj2,
       { db with records := db.records.map (fun r => if r.id == object_id then obj2 else r) })

/-- Model of `Storage.delete`: primary-key lookup by `object_id`; absent or already
deleted rows raise `RecordNotFoundError`; otherwise sets `deleted := true`,
re-stamps `last_modified := utcnow()` (`now`) and inserts one `Deleted` row
with the same id and timestamp.  The `with_deleted` argument is accepted but
never read by the source body; the new `Deleted` instance is not
timestamp-trackeable, so the `before_flush` hook does not fire for it. -/
def delete (db : DB) (collection_id parent_id : String) (object_id : Nat)
    (with_deleted : Bool) (now : Nat) : Except StorageError DBRecord × DB :=
  match findById db.records object_id with
  | none => (Except.error StorageError.recordNotFoundError, db)
  | some obj =>
      if obj.deleted then (Except.error StorageError.recordNotFoundError, db)
      else
        let obj2 : DBRecord := { obj with deleted := true, last_modified := now }
        (Except.ok obj2,
         { db with
             records := db.records.map (fun r => if r.id == object_id then obj2 else r),
             deleted := db.deleted ++ [⟨object_id, parent_id, collection_id, now⟩] })

/-- Model of `Storage.delete_all`: selects the ids of the live rows of the scope
matching the filters, builds one tombstone dict per row with its own
`utcnow()` call (`nows i` is the value of the i-th call, in row order), bulk
updates those rows to `deleted := true` with the per-row timestamp, and bulk
inserts the tombstones when `with_deleted`.  Bulk mappings bypass session
events, so the `timestamps` table is never touched. -/
def delete_all (db : DB) (collection_id parent_id : String)
    (filters : Option (DBRecord → Bool)) (with_deleted : Bool) (nows : Nat → Nat) :
    List Deleted × DB :=
  let matched := db.records.filter (fun r =>
    r.parent_id == parent_id && r.deleted == false &&
      (match filters with
       | none => true
       | some f => f r))
  let rows := matched.enum.map (fun p =>
    (⟨p.2.id, parent_id, collection_id, nows p.1⟩ : Deleted))
  (rows,
   { db with
       records := db.records.map (fun r =>
         match rows.find? (fun t => t.id == r.id) with
         | some t => { r with deleted := true, last_modified := t.last_modified }
         | none => r),
       deleted := if with_deleted then db.deleted ++ rows else db.deleted })

/-- Model of `Storage.purge_deleted`: executes `DELETE FROM deleted WHERE parent_id =
.. AND collection_id = ..` and returns the result's row count.  The `before`
argument is accepted but never read by the source body. -/
def purge_deleted (db : DB) (collection_id parent_id : String) (before : Option Nat) :
    Nat × DB :=
  let inScope := db.deleted.filter (fun t =>
    t.parent_id == parent_id && t.collection_id == collection_id)
  (inScope.length,
   { db with
       deleted := db.deleted.filter (fun t =>
         !(t.parent_id == parent_id && t.collection_id == collection_id)) })

/-- Model of `Storage.get_all`: the base query restricts on `parent_id` only;
`total_records` is counted from it *before* the deleted filter; live-only
filtering is applied afterwards when `include_deleted` is false; `limit`
truncates the page.  The `filters`, `sorting` and `pagination_rules`
arguments are accepted but never applied by the source body. -/
def get_all (db : DB) (collection_id parent_id : String)
    (filters : Option (DBRecord → Bool)) (sorting : List (String × Bool))
    (pagination_rules : List (List (DBRecord → Bool))) (limit : Option Nat)
    (include_deleted : Bool) : List DBRecord × Nat :=
  let qry := db.records.filter (fun r => r.parent_id == parent_id)
  let total_records := qry.length
  let qry2 := if include_deleted then qry else qry.filter (fun r => r.deleted == false)
  let page :=
    match limit with
    | none => qry2
    | some n => qry2.take n
  (page, total_records)

/-- Model of `Storage.flush`: `metadata.drop_all(); metadata.create_all()` — every
table emptied. -/
def flush (db : DB) : DB := ⟨[], [], []⟩

/-- Model of `Storage.initialize_schema`: delegates to `flush`. -/
def initialize_schema (db : DB) : DB := flush db

/-! ### Concrete database fixtures -/

/-- One live record in scope ("p1", "c1") with its `timestamps` row at 100. -/
def dbC1 : DB := ⟨[⟨1, "p1", [], 100, false⟩], [], [⟨"p1", "c1", 100⟩]⟩

/-- One live record with attribute `name = "a"` stamped at 100. -/
def dbC2 : DB := ⟨[⟨1, "p1", [("name", "a")], 100, false⟩], [], [⟨"p1", "c1", 100⟩]⟩

/-- Two tombstones of scope ("p1", "c1"), at timestamps 100 and 500. -/
def dbC3 : DB := ⟨[], [⟨1, "p1", "c1", 100⟩, ⟨2, "p1", "c1", 500⟩], [⟨"p1", "c1", 500⟩]⟩

/-- Ten live and four soft-deleted records in scope ("p1", "c1"). -/
def dbC4 : DB :=
  ⟨(List.range 10).map (fun i => ⟨i + 1, "p1", [], 100, false⟩) ++
     (List.range 4).map (fun i => ⟨i + 11, "p1", [], 100, true⟩),
   [], [⟨"p1", "c1", 100⟩]⟩

/-- One live record with unique attribute `name = "a"` in scope ("p1", "c1"). -/
def dbC5 : DB := ⟨[⟨1, "p1", [("name", "a")], 100, false⟩], [], [⟨"p1", "c1", 100⟩]⟩

/-- One live record with an attribute, for the delete life-cycle witness. -/
def dbC6 : DB := ⟨[⟨1, "p1", [("name", "a")], 100, false⟩], [], [⟨"p1", "c1", 100⟩]⟩

/-- Two live records in scope ("p1", "c1"). -/
def dbC7 : DB :=
  ⟨[⟨1, "p1", [], 100, false⟩, ⟨2, "p1", [], 100, false⟩], [], [⟨"p1", "c1", 100⟩]⟩

/-- A `timestamps` row whose datetime is 1.5 seconds past the epoch
(1500000 microseconds, i.e. 1500 milliseconds). -/
def dbC8 : DB := ⟨[], [], [⟨"p1", "c1", 1500000⟩]⟩

/-- A live record stored under parent "p1", for the cross-scope lookup
witness. -/
def dbC9 : DB := ⟨[⟨7, "p1", [("name", "a")], 100, false⟩], [], [⟨"p1", "c1", 100⟩]⟩

/-- Two live records with distinct ids and a pre-existing tombstone. -/
def dbC10 : DB :=
  ⟨[⟨1, "p1", [("name", "a")], 100, false⟩, ⟨2, "p1", [("name", "b")], 110, false⟩],
   [⟨9, "p1", "c1", 50⟩], [⟨"p1", "c1", 110⟩]⟩

/-! ### Claim theorems -/

/-- Claim C1: the claim states that every mutating operation on a scope
strictly increases the scope's tracked `last_modified`.  On the code, a
successful `delete` re-stamps the record but never touches the `timestamps`
table (the `before_flush` hook fires only for new timestamp-trackeable
instances, which a `Deleted` row is not), so the tracked collection timestamp
of ("p1", "c1") is exactly the same before and after the mutation. -/
theorem delete_succeeds_without_advancing_collection_timestamp :
    (delete dbC1 "c1" "p1" 1 true 200).1 = Except.ok ⟨1, "p1", [], 200, true⟩ ∧
    (delete dbC1 "c1" "p1" 1 true 200).2.timestamps = dbC1.timestamps ∧
    (collection_timestamp (delete dbC1 "c1" "p1" 1 true 200).2 "c1" "p1" 300).1 =
      (collection_timestamp dbC1 "c1" "p1" 300).1 :=
  ⟨rfl, rfl, rfl⟩

/-- Claim C2: the claim states that `update` on an existing record re-stamps
its `last_modified` with a fresh, strictly larger timestamp.  On the code,
the existing-record branch of `update` only sets the supplied attributes: the
returned (and stored) record keeps its old `last_modified` of 100 even though
the clock reads 200, and the `timestamps` table is untouched. -/
theorem update_existing_record_does_not_restamp :
    (update [] dbC2 "c1" "p1" 1 [("name", "b")] [] 200 201).1 =
      Except.ok ⟨1, "p1", [("name", "b")], 100, false⟩ ∧
    (update [] dbC2 "c1" "p1" 1 [("name", "b")] [] 200 201).2.records =
      [⟨1, "p1", [("name", "b")], 100, false⟩] ∧
    (update [] dbC2 "c1" "p1" 1 [("name", "b")] [] 200 201).2.timestamps = dbC2.timestamps :=
  ⟨rfl, rfl, rfl⟩

/-- Claim C3: the claim states that `purge_deleted(before = T)` removes
exactly the tombstones with `last_modified < T`.  On the code, the `before`
argument is never read: with tombstones at 100 and 500 and `before = 300`,
both tombstones are removed (the one at 500 should have survived) and the
count 2 is returned. -/
theorem purge_deleted_ignores_before_cutoff :
    (purge_deleted dbC3 "c1" "p1" (some 300)).1 = 2 ∧
    (purge_deleted dbC3 "c1" "p1" (some 300)).2.deleted = [] :=
  ⟨rfl, rfl⟩

/-- Claim C4: the claim states that with 10 live and 4 deleted records,
`limit = 2` and `include_deleted = false`, `get_all` returns 2 records with
`total_count == 10`.  On the code, `total_records` is counted from the base
query before the deleted filter is applied, so the call returns 2 records
with a total of 14. -/
theorem get_all_total_count_includes_deleted_rows :
    ((get_all dbC4 "c1" "p1" none [] [] (some 2) false).1).length = 2 ∧
    (get_all dbC4 "c1" "p1" none [] [] (some 2) false).2 = 14 :=
  ⟨rfl, rfl⟩

/-- Claim C7: the claim states that `delete_all` stamps every affected record
and tombstone with one shared timestamp and bumps the collection timestamp
exactly once.  On the code, `utcnow()` is called once per matched row inside
the row-building comprehension, so with a clock that advances between the two
calls the two records and their tombstones get the distinct stamps 200 and
201, and the bulk mappings bypass the session events, so the `timestamps` row
is never advanced at all. -/
theorem delete_all_stamps_rows_with_distinct_clocks_and_no_bump :
    ((delete_all dbC7 "c1" "p1" none true (fun i => 200 + i)).1).map Deleted.last_modified =
      [200, 201] ∧
    ((delete_all dbC7 "c1" "p1" none true (fun i => 200 + i)).2.records).map
        DBRecord.last_modified = [200, 201] ∧
    (delete_all dbC7 "c1" "p1" none true (fun i => 200 + i)).2.timestamps = dbC7.timestamps :=
  ⟨rfl, rfl, rfl⟩

/-- Claim C8: the claim states that every timestamp crossing the public
boundary is an integer count of epoch milliseconds.  On the code, the
boundary conversion is `datetime.timestamp()`, which yields epoch *seconds*
as a float: for an internal datetime of 1500000 microseconds (= 1500 ms) the
public value is 3/2 — not the integer 1500, and not an integer at all (its
denominator is 2). -/
theorem collection_timestamp_epoch_is_fractional_seconds :
    (collection_timestamp_epoch dbC8 "c1" "p1" 0).1 = 3 / 2 ∧
    (¬ ∃ n : ℤ, (collection_timestamp_epoch dbC8 "c1" "p1" 0).1 = (n : ℚ)) ∧
    (collection_timestamp_epoch dbC8 "c1" "p1" 0).1 ≠ (1500 : ℚ) := by
  have h1 : (collection_timestamp_epoch dbC8 "c1" "p1" 0).1 =
      ((1500000 : ℕ) : ℚ) / 1000000 := rfl
  have h32 : (collection_timestamp_epoch dbC8 "c1" "p1" 0).1 = 3 / 2 := by
    rw [h1]; norm_num
  refine ⟨h32, ?_, ?_⟩
  · rintro ⟨n, hn⟩
    rw [h32] at hn
    have h2 : (3 : ℚ) = 2 * (n : ℚ) := by
      rw [div_eq_iff (by norm_num : (2 : ℚ) ≠ 0)] at hn
      linarith
    have h3 : (3 : ℤ) = 2 * n := by exact_mod_cast h2
    omega
  · rw [h32]; norm_num

/-- Claim C5: a `create` whose row collides with an existing value of a
unique-constrained column fails with `UnicityError` carrying the offending
field and value, commits nothing (the failed flush aborts the transaction, so
the database is exactly the pre-call one), and in particular leaves the
scope's collection timestamp at its pre-call value.  The hypothesis `hts`
states that the scope's `timestamps` row exists, which holds in every state
where a record was ever created (the `before_flush` hook needs the row). -/
theorem create_unicity_violation_preserves_state (uniqueCols : List String) (db : DB)
    (c p : String) (record : List (String × String)) (unique_fields : List String)
    (now hookNow now2 : Nat) (f v : String)
    (hts : (populate_timestamps_table db.timestamps p c hookNow).isSome = true)
    (hc : findConflict uniqueCols db.records record = some (f, v)) :
    create uniqueCols db c p record unique_fields now hookNow =
      (Except.error (StorageError.unicityError f v), db) ∧
    (collection_timestamp
        (create uniqueCols db c p record unique_fields now hookNow).2 c p now2).1 =
      (collection_timestamp db c p now2).1 := by
  obtain ⟨ts, h⟩ := Option.isSome_iff_exists.mp hts
  have h1 : create uniqueCols db c p record unique_fields now hookNow =
      (Except.error (StorageError.unicityError f v), db) := by
    simp [create, h, hc]
  exact ⟨h1, by rw [h1]⟩

/-- Witness for claim C5: creating a second record with `name = "a"` under a
unique constraint on `name` fails with `UnicityError "name" "a"` and leaves
the database and its collection timestamp untouched. -/
theorem create_unicity_violation_preserves_state_witness :
    create ["name"] dbC5 "c1" "p1" [("name", "a")] ["name"] 200 201 =
      (Except.error (StorageError.unicityError "name" "a"), dbC5) ∧
    (collection_timestamp
        (create ["name"] dbC5 "c1" "p1" [("name", "a")] ["name"] 200 201).2 "c1" "p1" 300).1 =
      (collection_timestamp dbC5 "c1" "p1" 300).1 :=
  create_unicity_violation_preserves_state ["name"] dbC5 "c1" "p1" [("name", "a")]
    ["name"] 200 201 300 "name" "a" rfl rfl

/-- Replacing, in a record list, every row whose id matches `oid` by a fixed
row `obj2` with that id commutes with the primary-key lookup. -/
theorem findById_map_replace (l : List DBRecord) (oid : Nat) (obj2 : DBRecord)
    (h : obj2.id = oid) :
    findById (l.map (fun r => if r.id == oid then obj2 else r)) oid =
      (findById l oid).map (fun _ => obj2) := by
  induction l with
  | nil => rfl
  | cons a t ih =>
    simp only [findById, List.map_cons] at *
    by_cases ha : a.id = oid
    · have hsub : ((if a.id == oid then obj2 else a) : DBRecord) = obj2 := by simp [ha]
      rw [hsub, List.find?_cons_of_pos _ (by simpa using h),
        List.find?_cons_of_pos _ (by simpa using ha)]
      rfl
    · have hsub : ((if a.id == oid then obj2 else a) : DBRecord) = a := by simp [ha]
      rw [hsub, List.find?_cons_of_neg _ (by simpa using ha),
        List.find?_cons_of_neg _ (by simpa using ha)]
      exact ih

/-- Claim C6: a successful `delete` marks the row deleted, re-stamps its
`last_modified` with the current clock, appends exactly one tombstone with
the same id and the same timestamp, and afterwards both `get` and a repeated
`delete` on the same id fail with `RecordNotFoundError`. -/
theorem delete_tombstones_and_blocks_reaccess (db : DB) (c p : String) (oid : Nat)
    (wd wd2 : Bool) (now now2 : Nat) (obj : DBRecord)
    (hfind : findById db.records oid = some obj) (hlive : obj.deleted = false) :
    (delete db c p oid wd now).1 =
      Except.ok { obj with deleted := true, last_modified := now } ∧
    (delete db c p oid wd now).2.deleted = db.deleted ++ [⟨oid, p, c, now⟩] ∧
    get (delete db c p oid wd now).2 c p oid =
      Except.error StorageError.recordNotFoundError ∧
    (delete (delete db c p oid wd now).2 c p oid wd2 now2).1 =
      Except.error StorageError.recordNotFoundError := by
  have hid : obj.id = oid := by
    have hq := List.find?_some hfind
    simpa using hq
  have hD : delete db c p oid wd now =
      (Except.ok { obj with deleted := true, last_modified := now },
       { db with
           records := db.records.map (fun r =>
             if r.id == oid then { obj with deleted := true, last_modified := now } else r),
           deleted := db.deleted ++ [⟨oid, p, c, now⟩] }) := by
    simp [delete, hfind, hlive]
  have hfind2 : findById (delete db c p oid wd now).2.records oid =
      some { obj with deleted := true, last_modified := now } := by
    rw [hD]
    have := findById_map_replace db.records oid
      { obj with deleted := true, last_modified := now } (by simpa using hid)
    simpa [hfind] using this
  refine ⟨by rw [hD], by rw [hD], ?_, ?_⟩
  · simp [get, hfind2]
  · have hd : ∀ db2 : DB,
        findById db2.records oid = some { obj with deleted := true, last_modified := now } →
        (delete db2 c p oid wd2 now2).1 = Except.error StorageError.recordNotFoundError := by
      intro db2 hf2
      simp [delete, hf2]
    exact hd _ hfind2

/-- Witness for claim C6: deleting the live record of `dbC6` succeeds,
appends the matching tombstone, and makes both `get` and a second `delete`
fail with `RecordNotFoundError`. -/
theorem delete_tombstones_and_blocks_reaccess_witness :
    (delete dbC6 "c1" "p1" 1 true 200).1 =
      Except.ok ⟨1, "p1", [("name", "a")], 200, true⟩ ∧
    (delete dbC6 "c1" "p1" 1 true 200).2.deleted = [⟨1, "p1", "c1", 200⟩] ∧
    get (delete dbC6 "c1" "p1" 1 true 200).2 "c1" "p1" 1 =
      Except.error StorageError.recordNotFoundError ∧
    (delete (delete dbC6 "c1" "p1" 1 true 200).2 "c1" "p1" 1 true 300).1 =
      Except.error StorageError.recordNotFoundError :=
  delete_tombstones_and_blocks_reaccess dbC6 "c1" "p1" 1 true true 200 300
    ⟨1, "p1", [("name", "a")], 100, false⟩ rfl rfl

/-- Claim C9: the lookups of `get` and `delete` are by primary key alone: a
live record whose stored `parent_id` differs from the supplied one is still
found, returned and deletable instead of raising `RecordNotFoundError`. -/
theorem get_and_delete_ignore_supplied_scope (db : DB) (c2 p2 : String) (oid : Nat)
    (wd : Bool) (now : Nat) (obj : DBRecord)
    (hfind : findById db.records oid = some obj) (hlive : obj.deleted = false)
    (hparent : obj.parent_id ≠ p2) :
    get db c2 p2 oid = Except.ok obj ∧
    (delete db c2 p2 oid wd now).1 =
      Except.ok { obj with deleted := true, last_modified := now } := by
  constructor
  · simp [get, hfind, hlive]
  · simp [delete, hfind, hlive]

/-- Witness for claim C9: the record stored under parent "p1" is returned and
deleted by calls that supply the different parent "p2". -/
theorem get_and_delete_ignore_supplied_scope_witness :
    get dbC9 "c9" "p2" 7 = Except.ok ⟨7, "p1", [("name", "a")], 100, false⟩ ∧
    (delete dbC9 "c9" "p2" 7 true 200).1 =
      Except.ok ⟨7, "p1", [("name", "a")], 200, true⟩ :=
  get_and_delete_ignore_supplied_scope dbC9 "c9" "p2" 7 true 200
    ⟨7, "p1", [("name", "a")], 100, false⟩ rfl rfl (by decide)

/-- Under pairwise-distinct ids (the primary-key invariant), every list
member whose id matches the looked-up id is the record the lookup returned. -/
theorem mem_eq_of_findById (l : List DBRecord) (oid : Nat) (obj : DBRecord)
    (hp : l.Pairwise (fun a b => a.id ≠ b.id))
    (hf : findById l oid = some obj) :
    ∀ r ∈ l, r.id = oid → r = obj := by
  induction l with
  | nil => intro r hr; cases hr
  | cons a t ih =>
    rcases List.pairwise_cons.mp hp with ⟨hab, hpt⟩
    intro r hr hrid
    by_cases ha : a.id = oid
    · have hfa : findById (a :: t) oid = some a := by
        simp [findById, List.find?, ha]
      have hobj : obj = a := by
        rw [hf] at hfa
        exact (Option.some.injEq _ _).mp hfa.symm |>.symm
      rcases List.mem_cons.mp hr with hra | hrt
      · rw [hra, hobj]
      · exact absurd (ha.trans hrid.symm) (hab r hrt)
    · have hft : findById t oid = some obj := by
        have hba : (a.id == oid) = false := by simp [ha]
        simpa [findById, List.find?, hba] using hf
      rcases List.mem_cons.mp hr with hra | hrt
      · exact absurd (hra ▸ hrid) ha
      · exact ih hpt hft r hrt hrid

/-- Claim C10: a successful `delete` keeps the row (the record list is the
old one with only the target row's `deleted` flag and `last_modified`
changed), leaves every other record and every pre-existing tombstone intact,
adds exactly one tombstone, and does not touch the `timestamps` table. -/
theorem delete_frame_condition (db : DB) (c p : String) (oid : Nat) (wd : Bool)
    (now : Nat) (obj : DBRecord)
    (hp : db.records.Pairwise (fun a b => a.id ≠ b.id))
    (hfind : findById db.records oid = some obj) (hlive : obj.deleted = false) :
    (delete db c p oid wd now).2.records =
      db.records.map (fun r =>
        if r.id = oid then { r with deleted := true, last_modified := now } else r) ∧
    (delete db c p oid wd now).2.deleted = db.deleted ++ [⟨oid, p, c, now⟩] ∧
    (delete db c p oid wd now).2.timestamps = db.timestamps := by
  have hD : delete db c p oid wd now =
      (Except.ok { obj with deleted := true, last_modified := now },
       { db with
           records := db.records.map (fun r =>
             if r.id == oid then { obj with deleted := true, last_modified := now } else r),
           deleted := db.deleted ++ [⟨oid, p, c, now⟩] }) := by
    simp [delete, hfind, hlive]
  refine ⟨?_, by rw [hD], by rw [hD]⟩
  rw [hD]
  apply List.map_congr_left
  intro r hr
  by_cases hrid : r.id = oid
  · have hro : r = obj := mem_eq_of_findById db.records oid obj hp hfind r hr hrid
    subst hro
    simp [hrid]
  · simp [hrid]

/-- Witness for claim C10: deleting record 1 of `dbC10` rewrites only that
row's flag and stamp, keeps record 2 and the old tombstone as they were, and
appends the one new tombstone. -/
theorem delete_frame_condition_witness :
    (delete dbC10 "c1" "p1" 1 true 200).2.records =
      dbC10.records.map (fun r =>
        if r.id = 1 then { r with deleted := true, last_modified := 200 } else r) ∧
    (delete dbC10 "c1" "p1" 1 true 200).2.deleted =
      dbC10.deleted ++ [⟨1, "p1", "c1", 200⟩] ∧
    (delete dbC10 "c1" "p1" 1 true 200).2.timestamps = dbC10.timestamps :=
  delete_frame_condition dbC10 "c1" "p1" 1 true 200
    ⟨1, "p1", [("name", "a")], 100, false⟩ (by simp [dbC10]) rfl rfl

end Cliquet
